import Mathlib

/-!
Shallow embedding of the TVM LC-3 virtual machine (src/tyvm.c) and proofs
checking the natural-language specification against that code.

The machine state is the pair of global arrays `uint16_t memory[UINT16_MAX]`
and `uint16_t reg[RG_COUNT]` plus the `running` flag of the run loop in
`main`.  Registers and memory words are modelled as natural numbers; every
store into a register applies `% 65536`, mirroring truncation on assignment
to a `uint16_t` lvalue in C.

The C `switch` in the run loop declares its locals in a single shared scope;
the cases for `OP_ST`, `OP_STR`, `OP_STI` and `OP_JMP` call
`update_flags(dr)` although they never assign `dr`, so they read an
indeterminate (stale) value.  That indeterminate value is made explicit as
the parameter `dr0` of the corresponding execution functions and of `step`.
-/

/-- Index of the program counter in the `reg` array (`RG_PC`). -/
def RG_PC : Nat := 8

/-- Index of the condition-flag register in the `reg` array (`RG_COND`). -/
def RG_COND : Nat := 9

/-- Condition flag `FL_P` (positive), value 1. -/
def FL_P : Nat := 1

/-- Condition flag `FL_Z` (zero), value `1 << 1`. -/
def FL_Z : Nat := 2

/-- Condition flag `FL_N` (negative), value `1 << 2`. -/
def FL_N : Nat := 4

/-- Number of words in the declared memory array:
`uint16_t memory[UINT16_MAX];` with `UINT16_MAX = 65535` (src/tyvm.c line 50). -/
def MEMORY_WORDS : Nat := 65535

/-- A C-array access at index `a` stays inside the declared `memory` array
exactly when `a < MEMORY_WORDS`. -/
def memIndexInBounds (a : Nat) : Prop := a < MEMORY_WORDS

instance (a : Nat) : Decidable (memIndexInBounds a) := Nat.decLt a MEMORY_WORDS

/-- State of the virtual machine: contents of the `memory` array, contents of
the `reg` array, and the `running` flag of the run loop (`true` = Running,
`false` = Halted). -/
structure VMState where
  memory : Nat → Nat
  reg : Nat → Nat
  running : Bool

/-- Assignment `reg[r] = v`: the value is truncated modulo 2^16 because the
array element has type `uint16_t`. -/
def writeReg (s : VMState) (r v : Nat) : VMState :=
  { s with reg := fun i => if i = r then v % 65536 else s.reg i }

/-- Embedding of `update_flags` (src/tyvm.c lines 91-95):
`if (reg[r] == 0) reg[RG_COND] = FL_Z; else if (reg[r] >> 15) reg[RG_COND] = FL_N;
else reg[RG_COND] = FL_P;`. -/
def update_flags (s : VMState) (r : Nat) : VMState :=
  if s.reg r = 0 then writeReg s RG_COND FL_Z
  else if s.reg r >>> 15 ≠ 0 then writeReg s RG_COND FL_N
  else writeReg s RG_COND FL_P

/-- Embedding of `sign_extend` (src/tyvm.c lines 82-87):
`if ((n >> (bit_count - 1)) & 1) n |= (0xFFFF << bit_count); return n;`
where the compound assignment truncates the `int` intermediate back to
`uint16_t`. -/
def sign_extend (n : Nat) (bit_count : Nat) : Nat :=
  if (n >>> (bit_count - 1)) &&& 1 = 1 then
    (n ||| (0xFFFF <<< bit_count)) % 65536
  else n

/-- Index into the `memory` array produced by a memory access at `addr`:
`mem_read` takes a `uint16_t` parameter, so the address expression (computed
in `int`) is truncated modulo 2^16 at the call boundary. -/
def memIndex (addr : Nat) : Nat := addr % 65536

/-- Modelled from the spec: the function `mem_read` is called by the run loop
but defined nowhere in the repository.  Per the spec (§2 data flow, §3 Memory)
it returns the word stored at the given 16-bit address.  The keyboard
status/data interception of §6 concerns live console input at two reserved
high addresses and stays outside this pure model. -/
def mem_read (s : VMState) (addr : Nat) : Nat := s.memory (memIndex addr)

/-- Embedding of `case OP_BR` (src/tyvm.c lines 122-128). -/
def exec_BR (s : VMState) (instr : Nat) : VMState :=
  let cond := (instr >>> 9) &&& 0x7
  let PCoffset9 := sign_extend (instr &&& 0x1FF) 9
  if cond &&& s.reg RG_COND ≠ 0 then writeReg s RG_PC (s.reg RG_PC + PCoffset9)
  else s

/-- Embedding of `case OP_ADD` (src/tyvm.c lines 129-146).  In register mode
the code computes `reg[dr] = reg[sr1] + sr2` where `sr2 = instr & 0x7` is the
3-bit register index itself, not `reg[sr2]`. -/
def exec_ADD (s : VMState) (instr : Nat) : VMState :=
  let dr := (instr >>> 9) &&& 0x7
  let sr1 := (instr >>> 6) &&& 0x7
  let imm_flag := (instr >>> 5) &&& 0x1
  let s1 :=
    if imm_flag = 0 then
      let sr2 := instr &&& 0x7
      writeReg s dr (s.reg sr1 + sr2)
    else
      let imm5 := sign_extend (instr &&& 0x1F) 5
      writeReg s dr (s.reg sr1 + imm5)
  update_flags s1 dr

/-- Embedding of `case OP_LD` (src/tyvm.c lines 147-155). -/
def exec_LD (s : VMState) (instr : Nat) : VMState :=
  let dr := (instr >>> 9) &&& 0x7
  let PCoffset9 := sign_extend (instr &&& 0x1FF) 9
  let s1 := writeReg s dr (mem_read s (PCoffset9 + s.reg RG_PC))
  update_flags s1 dr

/-- Embedding of `case OP_ST` (src/tyvm.c lines 156-164).  The code performs
`reg[sr] = mem_read(PCoffset9 + reg[RG_PC]);` — a load into the register,
not a store to memory — and then `update_flags(dr)` on the stale `dr0`. -/
def exec_ST (s : VMState) (instr : Nat) (dr0 : Nat) : VMState :=
  let sr := (instr >>> 6) &&& 0x7
  let PCoffset9 := sign_extend (instr &&& 0x1FF) 9
  let s1 := writeReg s sr (mem_read s (PCoffset9 + s.reg RG_PC))
  update_flags s1 dr0

/-- Embedding of `case OP_JSR` (src/tyvm.c lines 165-173).  The code masks the
offset with `0x1FF` (9 bits, not 11), never writes `R7`, and in the JSRR
branch assigns the register index `BaseR_jsrr` itself to the PC. -/
def exec_JSR (s : VMState) (instr : Nat) : VMState :=
  let PCoffset11 := sign_extend (instr &&& 0x1FF) 11
  let jsr_flag := (instr >>> 11) &&& 0x1
  let BaseR_jsrr := (instr >>> 6) &&& 0x7
  if jsr_flag = 0 then writeReg s RG_PC BaseR_jsrr
  else writeReg s RG_PC (s.reg RG_PC + PCoffset11)

/-- Embedding of `case OP_AND` (src/tyvm.c lines 174-191).  As with ADD, the
register mode computes `reg[dr] = reg[sr1] & sr2` with the index `sr2`. -/
def exec_AND (s : VMState) (instr : Nat) : VMState :=
  let dr := (instr >>> 9) &&& 0x7
  let sr1 := (instr >>> 6) &&& 0x7
  let imm_flag := (instr >>> 5) &&& 0x1
  let s1 :=
    if imm_flag = 0 then
      let sr2 := instr &&& 0x7
      writeReg s dr (s.reg sr1 &&& sr2)
    else
      let imm5 := sign_extend (instr &&& 0x1F) 5
      writeReg s dr (s.reg sr1 &&& imm5)
  update_flags s1 dr

/-- Embedding of `case OP_LDR` (src/tyvm.c lines 192-201).  The offset field is
masked with `0x3FF` (10 bits) before the 6-bit sign extension. -/
def exec_LDR (s : VMState) (instr : Nat) : VMState :=
  let dr := (instr >>> 9) &&& 0x7
  let BaseR := (instr >>> 6) &&& 0x7
  let offset6 := sign_extend (instr &&& 0x3FF) 6
  let s1 := writeReg s dr (mem_read s (s.reg BaseR + offset6))
  update_flags s1 dr

/-- Embedding of `case OP_STR` (src/tyvm.c lines 202-211).  The code performs
`reg[sr] = mem_read(offset6 + BaseR);` — a load from the address
`offset6 + BaseR` where `BaseR` is the register index, with `sr` computed from
the same bits 6-8 — and then `update_flags(dr)` on the stale `dr0`. -/
def exec_STR (s : VMState) (instr : Nat) (dr0 : Nat) : VMState :=
  let sr := (instr >>> 6) &&& 0x7
  let BaseR := (instr >>> 6) &&& 0x7
  let offset6 := sign_extend (instr &&& 0x1FF) 6
  let s1 := writeReg s sr (mem_read s (offset6 + BaseR))
  update_flags s1 dr0

/-- Embedding of `case OP_NOT` (src/tyvm.c lines 212-220): `reg[dr] = ~reg[sr]`,
the 16-bit bitwise complement. -/
def exec_NOT (s : VMState) (instr : Nat) : VMState :=
  let dr := (instr >>> 9) &&& 0x7
  let sr := (instr >>> 6) &&& 0x7
  let s1 := writeReg s dr (s.reg sr ^^^ 65535)
  update_flags s1 dr

/-- Embedding of `case OP_LDI` (src/tyvm.c lines 221-229). -/
def exec_LDI (s : VMState) (instr : Nat) : VMState :=
  let dr := (instr >>> 9) &&& 0x7
  let PCoffset9 := sign_extend (instr &&& 0x1FF) 9
  let s1 := writeReg s dr (mem_read s (mem_read s (PCoffset9 + s.reg RG_PC)))
  update_flags s1 dr

/-- Embedding of `case OP_STI` (src/tyvm.c lines 230-238).  Like `OP_ST`, the
code loads (`reg[sr] = mem_read(mem_read(PCoffset9 + reg[RG_PC]))`) instead of
storing, then calls `update_flags(dr)` on the stale `dr0`. -/
def exec_STI (s : VMState) (instr : Nat) (dr0 : Nat) : VMState :=
  let sr := (instr >>> 6) &&& 0x7
  let PCoffset9 := sign_extend (instr &&& 0x1FF) 9
  let s1 := writeReg s sr (mem_read s (mem_read s (PCoffset9 + s.reg RG_PC)))
  update_flags s1 dr0

/-- Embedding of `case OP_JMP` (src/tyvm.c lines 239-246); the code also calls
`update_flags(dr)` on the stale `dr0`. -/
def exec_JMP (s : VMState) (instr : Nat) (dr0 : Nat) : VMState :=
  let BaseR := (instr >>> 6) &&& 0x7
  let s1 := writeReg s RG_PC (s.reg BaseR)
  update_flags s1 dr0

/-- Embedding of `case OP_LEA` (src/tyvm.c lines 247-255). -/
def exec_LEA (s : VMState) (instr : Nat) : VMState :=
  let dr := (instr >>> 9) &&& 0x7
  let PCoffset9 := sign_extend (instr &&& 0x1FF) 9
  let s1 := writeReg s dr (s.reg RG_PC + PCoffset9)
  update_flags s1 dr

/-- Embedding of `case OP_TRAP` (src/tyvm.c lines 256-258): the body is the
commented-out placeholder `//{TRAP};` followed by `break;`, so the state is
unchanged and `running` is not touched. -/
def exec_TRAP (s : VMState) (_instr : Nat) : VMState := s

/-- Dispatch of the `switch (op)` statement on `op = instr >> 12`
(src/tyvm.c lines 121-264).  `OP_RES` (13), `OP_RTI` (8) and `default` share
an empty body.  `dr0` is the indeterminate value of the never-assigned `dr`
read by the ST/STR/STI/JMP cases. -/
def execInstr (dr0 : Nat) (s : VMState) (instr : Nat) : VMState :=
  if instr >>> 12 = 0 then exec_BR s instr
  else if instr >>> 12 = 1 then exec_ADD s instr
  else if instr >>> 12 = 2 then exec_LD s instr
  else if instr >>> 12 = 3 then exec_ST s instr dr0
  else if instr >>> 12 = 4 then exec_JSR s instr
  else if instr >>> 12 = 5 then exec_AND s instr
  else if instr >>> 12 = 6 then exec_LDR s instr
  else if instr >>> 12 = 7 then exec_STR s instr dr0
  else if instr >>> 12 = 9 then exec_NOT s instr
  else if instr >>> 12 = 10 then exec_LDI s instr
  else if instr >>> 12 = 11 then exec_STI s instr dr0
  else if instr >>> 12 = 12 then exec_JMP s instr dr0
  else if instr >>> 12 = 14 then exec_LEA s instr
  else if instr >>> 12 = 15 then exec_TRAP s instr
  else s

/-- One iteration of the run loop body (src/tyvm.c lines 117-265):
`uint16_t instr = mem_read(reg[RG_PC]++);` fetches at the old PC, the PC is
incremented (wrapping as a `uint16_t`), and the instruction is dispatched.
No case of the switch ever assigns `running = FALSE`. -/
def step (dr0 : Nat) (s : VMState) : VMState :=
  execInstr dr0 (writeReg s RG_PC (s.reg RG_PC + 1)) (mem_read s (s.reg RG_PC))

/-- Outcome of the startup code in `main` before the run loop is reached. -/
inductive StartupResult where
  | exited (code : Nat) (message : String)
  | enteredRunLoop

/-- Embedding of the argument handling in `main` (src/tyvm.c lines 100-108),
with `args` the command-line arguments after the program name (so
`argc = args.length + 1`).  `if (argc < 2) { printf("usage..."); exit(2); }`,
then `for (int i = 1; i < argc; i++) { printf("failed to load image: %s\n",
argv[i]); exit(1); }`: the first loop iteration prints the failure message for
the first argument and exits with code 1 unconditionally; only an empty
argument list would fall through to the run loop. -/
def mainStartup (args : List String) : StartupResult :=
  if args.length + 1 < 2 then
    StartupResult.exited 2 "usage: [image-file1] ...\n"
  else
    match args with
    | [] => StartupResult.enteredRunLoop
    | a :: _ => StartupResult.exited 1 ("failed to load image: " ++ a ++ "\n")

/-- Helper: OR-ing a value below `2 ^ k` with a value shifted left by `k` is
the same as adding them, since the bit ranges are disjoint. -/
theorem or_shiftLeft_eq_add {n k : Nat} (b : Nat) (hn : n < 2 ^ k) :
    n ||| (b <<< k) = 2 ^ k * b + n := by
  apply Nat.eq_of_testBit_eq
  intro j
  rw [Nat.testBit_or, Nat.testBit_mul_pow_two_add b hn j, Nat.testBit_shiftLeft]
  by_cases hjk : j < k
  · have h1 : ¬ (j ≥ k) := Nat.not_le.mpr hjk
    simp [hjk, h1]
  · have hk : j ≥ k := Nat.le_of_not_lt hjk
    have hnj : Nat.testBit n j = false :=
      Nat.testBit_lt_two_pow
        (Nat.lt_of_lt_of_le hn (Nat.pow_le_pow_right (by norm_num) hk))
    simp [hjk, hk, hnj]

/-- Claim C8: for all N in 1..16 and every N-bit field value `n`, `sign_extend`
leaves `n` unchanged when its top bit (bit N-1) is 0; when the top bit is 1 the
result equals `n - 2 ^ N` taken modulo 2^16 (two's complement widening). -/
theorem sign_extend_ok (N : Nat) (hN1 : 1 ≤ N) (hN16 : N ≤ 16) (n : Nat) (hn : n < 2 ^ N) :
    (Nat.testBit n (N - 1) = false → sign_extend n N = n) ∧
    (Nat.testBit n (N - 1) = true →
      (sign_extend n N : Int) = ((n : Int) - 2 ^ N) % 2 ^ 16) := by
  have hc : ((n >>> (N - 1)) &&& 1 = 1) ↔ Nat.testBit n (N - 1) = true := by
    rw [Nat.and_one_is_mod, Nat.shiftRight_eq_div_pow, Nat.testBit_to_div_mod,
      decide_eq_true_eq]
  constructor
  · intro h
    have h' : ¬ ((n >>> (N - 1)) &&& 1 = 1) := by
      rw [hc, h]; simp
    rw [sign_extend, if_neg h']
  · intro h
    have h' : (n >>> (N - 1)) &&& 1 = 1 := hc.mpr h
    rw [sign_extend, if_pos h', or_shiftLeft_eq_add 0xFFFF hn]
    interval_cases N <;> (norm_num at hn ⊢; omega)

/-- Witness for C8: `sign_extend` applied to the 5-bit value 17 (top bit set)
gives 17 - 32 modulo 2^16. -/
theorem sign_extend_ok_witness :
    (sign_extend 17 5 : Int) = ((17 : Int) - 2 ^ 5) % 2 ^ 16 :=
  (sign_extend_ok 5 (by decide) (by decide) 17 (by decide)).2 (by decide)

/-- State of spec Scenario A: R1 = 5, R2 = 3, all other registers 0. -/
def vmScenarioA : VMState :=
  { memory := fun _ => 0,
    reg := fun i => if i = 1 then 5 else if i = 2 then 3 else 0,
    running := true }

/-- Claim C1: the claim says that in register mode ADD writes
`reg[sr1] + reg[sr2]` and AND writes `reg[sr1] & reg[sr2]` (wrapped mod 2^16).
The code instead combines `reg[sr1]` with the 3-bit register index `sr2`
itself.  At spec Scenario A (R1 = 5, R2 = 3, instruction 0x1042 = ADD R0,R1,R2)
the code yields R0 = 5 + 2 = 7 while the claimed semantics yields 8; for AND
0x5042 the code yields `5 AND 2 = 0` while the claimed semantics yields
`5 AND 3 = 1`. -/
theorem add_and_register_mode_uses_index :
    (exec_ADD vmScenarioA 0x1042).reg 0 = 7 ∧
    (vmScenarioA.reg 1 + vmScenarioA.reg 2) % 65536 = 8 ∧
    (exec_AND vmScenarioA 0x5042).reg 0 = 0 ∧
    (vmScenarioA.reg 1 &&& vmScenarioA.reg 2) = 1 := by decide

/-- State for the ST/STI counterexample: post-increment PC = 0x3001, R1 = 5,
COND = FL_P, Memory[0x3043] = 7 and all other words 0. -/
def vmStore : VMState :=
  { memory := fun a => if a = 0x3043 then 7 else 0,
    reg := fun i => if i = 8 then 0x3001 else if i = 9 then 1 else if i = 1 then 5 else 0,
    running := true }

/-- Claim C2: the claim says ST writes `reg[sr]` to `Memory[PC + off9]` (and STI
to `Memory[Memory[PC + off9]]`) leaving every register, COND included,
unchanged.  The code instead performs a load: executing ST 0x3042 (sr = R1,
off9 = 0x42) from `vmStore` leaves Memory[0x3043] = 7 (the claimed target is
never written with R1's value 5), overwrites R1 with the loaded 7, and rewrites
COND (1 becomes 2) through `update_flags` on the stale `dr`; STI 0xB042
likewise writes R1 and leaves Memory[7] at 0 instead of 5. -/
theorem st_sti_load_instead_of_store :
    (exec_ST vmStore 0x3042 0).memory 0x3043 = 7 ∧
    vmStore.reg 1 = 5 ∧
    (exec_ST vmStore 0x3042 0).reg 1 = 7 ∧
    vmStore.reg RG_COND = 1 ∧
    (exec_ST vmStore 0x3042 0).reg RG_COND = 2 ∧
    (exec_STI vmStore 0xB042 0).memory 7 = 0 ∧
    (exec_STI vmStore 0xB042 0).reg 1 = 0 := by decide

/-- State for the HALT counterexample: PC = 0x3000, COND = FL_Z,
Memory[0x3000] = 0xF025 (TRAP with vector 0x25, i.e. HALT). -/
def vmHalt : VMState :=
  { memory := fun a => if a = 0x3000 then 0xF025 else 0,
    reg := fun i => if i = 8 then 0x3000 else if i = 9 then 2 else 0,
    running := true }

/-- Claim C3: the claim says TRAP 0x25 (HALT) moves the run loop from Running
to Halted with no subsequent fetch.  In the code the `OP_TRAP` case is an empty
stub and `running` is never set to FALSE anywhere, so after executing the HALT
trap the machine is still Running with PC = 0x3001, and the loop performs a
subsequent fetch (a second step fetches at 0x3001 and moves PC to 0x3002). -/
theorem halt_trap_does_not_halt :
    vmHalt.running = true ∧
    mem_read vmHalt (vmHalt.reg RG_PC) = 0xF025 ∧
    (step 0 vmHalt).running = true ∧
    (step 0 vmHalt).reg RG_PC = 0x3001 ∧
    (step 0 (step 0 vmHalt)).reg RG_PC = 0x3002 := by decide

/-- State for the JSR counterexample: post-increment PC = 0x3001, R3 = 0x1234,
R7 = 0. -/
def vmJsr : VMState :=
  { memory := fun _ => 0,
    reg := fun i => if i = 8 then 0x3001 else if i = 3 then 0x1234 else 0,
    running := true }

/-- Claim C4: the claim says JSR first saves R7 = post-increment PC, then with
the long flag adds the sign-extended 11-bit offset (bits 0-10) to PC, otherwise
sets PC to the base register's value.  The code diverges three ways: executing
JSR 0x4805 leaves R7 = 0 (the return address 0x3001 is never saved); executing
JSR 0x4C00 (offset field 0x400, bit 10 set) leaves PC = 0x3001 because the code
masks the offset with 0x1FF, while the claimed semantics gives
PC = (0x3001 + sign_extend 0x400 11) mod 2^16 = 0x2C01; and executing JSRR
0x40C0 (base register R3) sets PC to the register index 3, not to
R3 = 0x1234. -/
theorem jsr_saves_no_return_address :
    vmJsr.reg RG_PC = 0x3001 ∧
    (exec_JSR vmJsr 0x4805).reg 7 = 0 ∧
    (exec_JSR vmJsr 0x4C00).reg RG_PC = 0x3001 ∧
    (0x3001 + sign_extend 0x400 11) % 65536 = 0x2C01 ∧
    vmJsr.reg 3 = 0x1234 ∧
    (exec_JSR vmJsr 0x40C0).reg RG_PC = 3 := by decide

/-- State for the STR/LDR round-trip counterexample: PC = 0x3000,
Memory[0x3000] = 0x7280 (STR R1, base R2, offset 0),
Memory[0x3001] = 0x6680 (LDR R3, base R2, offset 0), R1 = 0xAB, R2 = 0x4000. -/
def vmRoundTrip : VMState :=
  { memory := fun a => if a = 0x3000 then 0x7280 else if a = 0x3001 then 0x6680 else 0,
    reg := fun i => if i = 8 then 0x3000 else if i = 1 then 0xAB else if i = 2 then 0x4000 else 0,
    running := true }

/-- Claim C5: the claim says STR followed immediately by LDR at the same
base+offset writes the stored value into the LDR destination.  Running the two
instructions of `vmRoundTrip` (STR R1 to base R2 offset 0, then LDR R3 from
base R2 offset 0, with R1 = 0xAB) leaves R3 = 0, not 0xAB: the STR case never
writes memory (Memory[0x4000] is still 0 afterwards) — it instead loads from
the address `offset6 + BaseR-index` into `reg[(instr >> 6) & 7]`, clobbering
the base register R2 to 0 on the way. -/
theorem str_ldr_roundtrip_fails :
    vmRoundTrip.reg 1 = 0xAB ∧ vmRoundTrip.reg 2 = 0x4000 ∧
    mem_read vmRoundTrip (vmRoundTrip.reg RG_PC) = 0x7280 ∧
    mem_read vmRoundTrip (vmRoundTrip.reg RG_PC + 1) = 0x6680 ∧
    (step 0 (step 0 vmRoundTrip)).reg 3 = 0 ∧
    (step 0 (step 0 vmRoundTrip)).memory 0x4000 = 0 ∧
    (step 0 (step 0 vmRoundTrip)).reg 2 = 0 := by decide

/-- State with the program counter at the top address 0xFFFF. -/
def vmTop : VMState :=
  { memory := fun _ => 0,
    reg := fun i => if i = 8 then 0xFFFF else 0,
    running := true }

/-- Claim C6: the claim says memory is an array of 65,536 words addressable
0x0000-0xFFFF, so no out-of-bounds access is possible.  The declaration
`uint16_t memory[UINT16_MAX]` provides only 65,535 words (valid indices
0..65534), yet the 16-bit address 0xFFFF is reachable — e.g. an instruction
fetch with PC = 0xFFFF accesses index 0xFFFF, which is outside the declared
array. -/
theorem memory_declared_size_off_by_one :
    MEMORY_WORDS = 65535 ∧ MEMORY_WORDS ≠ 65536 ∧
    memIndex (vmTop.reg RG_PC) = 0xFFFF ∧
    ¬ memIndexInBounds (memIndex (vmTop.reg RG_PC)) := by decide

/-- State for the stale-flag counterexample: post-increment PC = 0x3001,
COND = FL_P, all general registers 0, Memory[0x3043] = 0x8000. -/
def vmFlags : VMState :=
  { memory := fun a => if a = 0x3043 then 0x8000 else 0,
    reg := fun i => if i = 8 then 0x3001 else if i = 9 then 1 else 0,
    running := true }

/-- Claim C7: the claim says that after any flag-updating instruction COND
matches the signed interpretation of the value just written to the
general-purpose register.  Executing ST 0x3042 from `vmFlags` writes 0x8000
(high bit set, so the claim requires FL_N) into R1, but the code calls
`update_flags` on the stale, never-assigned `dr` (here 0, with `reg[0] = 0`),
so COND ends up FL_Z, not FL_N. -/
theorem flags_updated_from_stale_register :
    (exec_ST vmFlags 0x3042 0).reg 1 = 0x8000 ∧
    (0x8000 : Nat) >>> 15 = 1 ∧
    (exec_ST vmFlags 0x3042 0).reg RG_COND = FL_Z ∧
    FL_Z ≠ FL_N := by decide

/-- Claim C9: executing an instruction whose opcode is RES (1101 = 13) or RTI
(8) leaves memory, every register other than the already-incremented PC, and
the run-loop state unchanged, and execution proceeds to the next instruction:
the step is exactly the fetch increment of the PC. -/
theorem res_rti_leave_state (dr0 : Nat) (s : VMState)
    (h : mem_read s (s.reg RG_PC) >>> 12 = 13 ∨ mem_read s (s.reg RG_PC) >>> 12 = 8) :
    (step dr0 s).memory = s.memory ∧
    (∀ r, r ≠ RG_PC → (step dr0 s).reg r = s.reg r) ∧
    (step dr0 s).reg RG_PC = (s.reg RG_PC + 1) % 65536 ∧
    (step dr0 s).running = s.running := by
  have hstep : step dr0 s = writeReg s RG_PC (s.reg RG_PC + 1) := by
    rcases h with h | h <;> simp [step, execInstr, h]
  rw [hstep]
  refine ⟨rfl, ?_, ?_, rfl⟩
  · intro r hr
    simp [writeReg, hr]
  · simp [writeReg]

/-- State whose every memory word is 0xD000, an instruction with the RES
opcode 1101. -/
def vmRES : VMState :=
  { memory := fun _ => 0xD000,
    reg := fun _ => 0,
    running := true }

/-- Witness for C9: stepping `vmRES` (which fetches the RES instruction
0xD000) leaves R0 and the running flag unchanged. -/
theorem res_rti_leave_state_witness :
    (step 0 vmRES).reg 0 = vmRES.reg 0 ∧ (step 0 vmRES).running = vmRES.running :=
  ⟨(res_rti_leave_state 0 vmRES (Or.inl (by decide))).2.1 0 (by decide),
   (res_rti_leave_state 0 vmRES (Or.inl (by decide))).2.2.2⟩

/-- Claim C10: for every invocation with at least one image-file argument, the
startup code prints the load-failure message for the first argument and exits
with code 1, so the run loop (and hence any instruction fetch) is never
reached. -/
theorem args_exit_before_run_loop (a : String) (rest : List String) :
    mainStartup (a :: rest) =
      StartupResult.exited 1 ("failed to load image: " ++ a ++ "\n") ∧
    mainStartup (a :: rest) ≠ StartupResult.enteredRunLoop := by
  have h : ¬ ((a :: rest).length + 1 < 2) := by simp
  unfold mainStartup
  rw [if_neg h]
  exact ⟨rfl, by simp⟩
